import Mathlib

/-!
Verification of the sliding-window Ogg segmenter in `src/main.py`
(`calculate_frame_duration` and `CreateNsAudioPackage.execute`).

Modelling conventions:
* Byte strings are `List Nat` (`Bytes`); the empty list is Python's falsy `b''`.
* Python `float` arithmetic is modelled by exact rational arithmetic (`ℚ`).
  Every concrete example below uses granule positions that are multiples of the
  sample rate, so all durations are small integers and the IEEE-double
  computations of the source are exact; the rational model agrees with them.
* The page parser (`OggSFrame.__init__`, `get_header_frames` from
  `extract_ogg`) is repository code that is not part of the analysed source
  tree; it is modelled from the spec as an abstract `PageParser` record, and
  theorems quantify over it.  A failing `OggSFrame` constructor (a Python
  exception) is modelled by `parsePage` returning `none`.
* The pair `(dp, dpm)` side effects of `execute` are modelled by an `Outcome`
  value: `skipped` (falsy `dp.data`, body not entered), `parseError`
  (`OggSFrame` raised, exception propagates before any state mutation),
  `headersIncomplete` (`dpm.success = False`, "Could not find the header
  frames"), `noUpdate` (`frame_duration ≤ 0`, `dp.data` not replaced), and
  `emit blob` (`dp.data` set to `blob`).
-/

/-- Byte strings, as in Python `bytes`. -/
abbrev Bytes := List Nat

/-- One parsed Ogg page, as produced by `OggSFrame(data)`: its exact wire
bytes (`raw_data`) and the `granule_position` field of its header. -/
structure OggSFrame where
  raw_data : Bytes
  granule_position : Nat
deriving Repr, DecidableEq

/-- Modelled from the spec: the external Page Parser collaborator
(`extract_ogg`, not part of the analysed source).  `parsePage` is the
`OggSFrame` constructor (`none` models the constructor raising on malformed
bytes); `get_header_frames` detects an identification page and comment
page(s) within an accumulated byte buffer, returning `none` / `[]`
components while they are absent (Python returns falsy values there). -/
structure PageParser where
  parsePage : Bytes → Option OggSFrame
  get_header_frames : Bytes → Option OggSFrame × List OggSFrame

/-- Transcription of `calculate_frame_duration` (src/main.py lines 17-22):
`previous_granule_position is None` yields `0.0`, otherwise
`(current - previous) / sample_rate`. -/
def calculate_frame_duration (current_granule_position : Nat)
    (previous_granule_position : Option Nat) (sample_rate : Nat) : ℚ :=
  match previous_granule_position with
  | none => 0
  | some p => ((current_granule_position : ℚ) - (p : ℚ)) / (sample_rate : ℚ)

/-- The mutable state of the `CreateNsAudioPackage` module
(src/main.py lines 32-40). -/
structure CreateNsAudioPackage where
  audio_data_buffer : List OggSFrame
  sample_rate : Nat
  last_n_seconds : Nat
  current_audio_buffer_seconds : ℚ
  header_buffer : Bytes
  header_frames : Option (List OggSFrame)
deriving Repr, DecidableEq

/-- The `__init__` state of `CreateNsAudioPackage`. -/
def CreateNsAudioPackage.init : CreateNsAudioPackage :=
  { audio_data_buffer := []
    sample_rate := 48000
    last_n_seconds := 10
    current_audio_buffer_seconds := 0
    header_buffer := []
    header_frames := none }

/-- The result of one call to `execute`, covering its `dp.data` / `dpm`
side effects (see the module comment). -/
inductive Outcome where
  | skipped
  | parseError
  | headersIncomplete
  | noUpdate
  | emit (blob : Bytes)
deriving Repr, DecidableEq

/-- Lines 63-66 of src/main.py: the granule position of the window's tail
page (`self.audio_data_buffer[-1]` when the buffer is non-empty), else `0`. -/
def CreateNsAudioPackage.previous_granule_position (s : CreateNsAudioPackage) : Nat :=
  match s.audio_data_buffer.getLast? with
  | some last_frame => last_frame.granule_position
  | none => 0

/-- Line 68 of src/main.py: the duration attributed to the incoming frame. -/
def CreateNsAudioPackage.frame_duration (s : CreateNsAudioPackage)
    (frame : OggSFrame) : ℚ :=
  calculate_frame_duration frame.granule_position
    (some s.previous_granule_position) s.sample_rate

/-- Lines 63-89 of src/main.py: the post-header part of `execute`.  Computes
the new frame's duration against the window tail (`0` granule reference when
the window is empty), appends the frame, and — only when the duration is
strictly positive — performs the single-step eviction check and emits the
snapshot blob `header_buffer + b''.join(raw_data of window)`. -/
def CreateNsAudioPackage.streamingStep (s : CreateNsAudioPackage)
    (frame : OggSFrame) : CreateNsAudioPackage × Outcome :=
  let frame_duration : ℚ := s.frame_duration frame
  let s1 : CreateNsAudioPackage :=
    { s with
      audio_data_buffer := s.audio_data_buffer ++ [frame]
      current_audio_buffer_seconds :=
        s.current_audio_buffer_seconds + frame_duration }
  if frame_duration > 0 then
    let s2 : CreateNsAudioPackage :=
      if s1.current_audio_buffer_seconds ≥ (s1.last_n_seconds : ℚ) then
        match s1.audio_data_buffer with
        | [] => s1
        | pop_frame :: rest =>
          let pop_frame_granule_position : Nat := pop_frame.granule_position
          let next_frame_granule_position : Nat :=
            match rest with
            | [] => pop_frame_granule_position
            | next :: _ => next.granule_position
          let pop_frame_duration : ℚ :=
            calculate_frame_duration next_frame_granule_position
              (some pop_frame_granule_position) s1.sample_rate
          { s1 with
            audio_data_buffer := rest
            current_audio_buffer_seconds :=
              s1.current_audio_buffer_seconds - pop_frame_duration }
      else s1
    (s2, Outcome.emit
      (s2.header_buffer ++ (s2.audio_data_buffer.map OggSFrame.raw_data).flatten))
  else (s1, Outcome.noUpdate)

/-- Transcription of `CreateNsAudioPackage.execute` (src/main.py lines
42-89).  `if dp.data:` guards the whole body; while `header_frames` is unset
the call accumulates bytes and runs header detection, returning
`headersIncomplete` (with `dpm.success = False`) when detection fails, and
otherwise falling through to `streamingStep` on the same call. -/
def CreateNsAudioPackage.execute (P : PageParser) (s : CreateNsAudioPackage)
    (data : Bytes) : CreateNsAudioPackage × Outcome :=
  if data = [] then (s, Outcome.skipped)
  else
    match P.parsePage data with
    | none => (s, Outcome.parseError)
    | some frame =>
      match s.header_frames with
      | none =>
        let s1 : CreateNsAudioPackage :=
          { s with header_buffer := s.header_buffer ++ frame.raw_data }
        match P.get_header_frames s1.header_buffer with
        | (some id_header_frame, c :: cs) =>
          CreateNsAudioPackage.streamingStep
            { s1 with header_frames := some (id_header_frame :: c :: cs) } frame
        | _ => (s1, Outcome.headersIncomplete)
      | some _ => CreateNsAudioPackage.streamingStep s frame

/-- Feeding a list of page payloads through `execute` sequentially,
collecting the outcome of every call. -/
def CreateNsAudioPackage.run (P : PageParser) (s : CreateNsAudioPackage) :
    List Bytes → CreateNsAudioPackage × List Outcome
  | [] => (s, [])
  | d :: ds =>
    let r1 := CreateNsAudioPackage.execute P s d
    let r2 := CreateNsAudioPackage.run P r1.1 ds
    (r2.1, r1.2 :: r2.2)

/-- A concrete `PageParser` instance used to evaluate the model on explicit
inputs.  A page is encoded as `[tag, gp]`: tag `1` is an identification
page, `2` a comment page, `3` an audio page, `99` malformed. -/
def toyParse : Bytes → Option OggSFrame
  | t :: g :: rest => if t = 99 then none else some ⟨t :: g :: rest, g⟩
  | _ => none

/-- Splits a toy byte buffer back into its two-byte pages. -/
def toyPages : Bytes → List OggSFrame
  | t :: g :: rest => ⟨[t, g], g⟩ :: toyPages rest
  | _ => []

/-- Toy header detection: the first tag-`1` page and all tag-`2` pages of
the accumulated buffer. -/
def toyGetHeaderFrames (bs : Bytes) : Option OggSFrame × List OggSFrame :=
  (( toyPages bs).find? (fun f => f.raw_data.headI = 1),
   (toyPages bs).filter (fun f => f.raw_data.headI = 2))

/-- The toy parser bundle. -/
def toyParser : PageParser :=
  { parsePage := toyParse, get_header_frames := toyGetHeaderFrames }

namespace CreateNsAudioPackage

/-- When headers were already captured, `execute` parses and then runs the
streaming part on the parsed frame. -/
lemma execute_streaming (P : PageParser) (s : CreateNsAudioPackage)
    (bs : Bytes) (frame : OggSFrame) (l : List OggSFrame)
    (hbs : bs ≠ []) (hp : P.parsePage bs = some frame)
    (hh : s.header_frames = some l) :
    execute P s bs = streamingStep s frame := by
  simp [execute, hbs, hp, hh]

/-- A malformed page (rejected by the parser) on a non-empty payload yields
`parseError` and leaves the state untouched. -/
lemma execute_parse_failure (P : PageParser) (s : CreateNsAudioPackage)
    (bs : Bytes) (hbs : bs ≠ []) (hp : P.parsePage bs = none) :
    execute P s bs = (s, Outcome.parseError) := by
  simp [execute, hbs, hp]

/-- When the attributed duration is not positive, the frame is appended, the
duration is added (a no-op or a decrease), and the call returns `noUpdate`. -/
lemma streamingStep_nonpos (s : CreateNsAudioPackage) (frame : OggSFrame)
    (h : s.frame_duration frame ≤ 0) :
    s.streamingStep frame =
      ({ s with
          audio_data_buffer := s.audio_data_buffer ++ [frame]
          current_audio_buffer_seconds :=
            s.current_audio_buffer_seconds + s.frame_duration frame },
        Outcome.noUpdate) := by
  simp only [streamingStep]
  rw [if_neg (not_lt.mpr h)]

/-- Positive duration, target not yet reached: append, no eviction, emit. -/
lemma streamingStep_pos_noevict (s : CreateNsAudioPackage) (frame : OggSFrame)
    (hpos : s.frame_duration frame > 0)
    (hlt : s.current_audio_buffer_seconds + s.frame_duration frame <
      (s.last_n_seconds : ℚ)) :
    s.streamingStep frame =
      ({ s with
          audio_data_buffer := s.audio_data_buffer ++ [frame]
          current_audio_buffer_seconds :=
            s.current_audio_buffer_seconds + s.frame_duration frame },
        Outcome.emit (s.header_buffer ++
          ((s.audio_data_buffer ++ [frame]).map OggSFrame.raw_data).flatten)) := by
  simp only [streamingStep]
  rw [if_pos hpos, if_neg (not_le.mpr hlt)]

/-- Positive duration, target reached: append, evict exactly the head of the
appended buffer, subtract the popped frame's duration, emit. -/
lemma streamingStep_pos_evict (s : CreateNsAudioPackage) (frame pop : OggSFrame)
    (rest : List OggSFrame)
    (happ : s.audio_data_buffer ++ [frame] = pop :: rest)
    (hpos : s.frame_duration frame > 0)
    (hfull : s.current_audio_buffer_seconds + s.frame_duration frame ≥
      (s.last_n_seconds : ℚ)) :
    s.streamingStep frame =
      ({ s with
          audio_data_buffer := rest
          current_audio_buffer_seconds :=
            s.current_audio_buffer_seconds + s.frame_duration frame -
              calculate_frame_duration
                (rest.head?.elim pop.granule_position OggSFrame.granule_position)
                (some pop.granule_position) s.sample_rate },
        Outcome.emit (s.header_buffer ++ (rest.map OggSFrame.raw_data).flatten)) := by
  simp only [streamingStep]
  rw [if_pos hpos, if_pos hfull, happ]
  cases rest with
  | nil => rfl
  | cons next t => rfl

end CreateNsAudioPackage

namespace CreateNsAudioPackage

/-- Unfolds the attributed duration to the granule arithmetic of line 68. -/
lemma frame_duration_eq (s : CreateNsAudioPackage) (frame : OggSFrame) :
    s.frame_duration frame =
      ((frame.granule_position : ℚ) - (s.previous_granule_position : ℚ)) /
        (s.sample_rate : ℚ) := rfl

/-- With an empty window the granule reference is `0` (line 66). -/
lemma previous_granule_position_nil (s : CreateNsAudioPackage)
    (h : s.audio_data_buffer = []) : s.previous_granule_position = 0 := by
  simp [previous_granule_position, h]

/-- With a non-empty window the granule reference is the tail page's. -/
lemma previous_granule_position_last (s : CreateNsAudioPackage)
    (last_frame : OggSFrame)
    (h : s.audio_data_buffer.getLast? = some last_frame) :
    s.previous_granule_position = last_frame.granule_position := by
  simp [previous_granule_position, h]

end CreateNsAudioPackage

/-- C10: a call whose input byte payload is empty is a complete no-op — the
`if dp.data:` guard skips the body, so no parse happens, no error or blob is
produced, and the whole state (window, cumulative duration, header
accumulator, HeaderSet) is returned unchanged. -/
theorem C10_empty_payload_noop (P : PageParser) (s : CreateNsAudioPackage) :
    CreateNsAudioPackage.execute P s [] = (s, Outcome.skipped) := by
  simp [CreateNsAudioPackage.execute]

/-- C7: for every state, a non-empty payload the parser rejects makes the
call report a structural parse error (the `OggSFrame` constructor raises
before any mutation) and leaves the window, the cumulative duration, the
accumulator and the HeaderSet exactly as they were. -/
theorem C7_parse_error_state_unchanged (P : PageParser)
    (s : CreateNsAudioPackage) (bs : Bytes) (hbs : bs ≠ [])
    (hp : P.parsePage bs = none) :
    CreateNsAudioPackage.execute P s bs = (s, Outcome.parseError) :=
  CreateNsAudioPackage.execute_parse_failure P s bs hbs hp

/-- Witness for C7 on the toy parser: payload `[99, 0]` is malformed. -/
theorem C7_witness :
    (([99, 0] : Bytes) ≠ []) ∧ toyParser.parsePage [99, 0] = none ∧
      CreateNsAudioPackage.execute toyParser CreateNsAudioPackage.init [99, 0] =
        (CreateNsAudioPackage.init, Outcome.parseError) :=
  ⟨by decide, by decide,
    C7_parse_error_state_unchanged toyParser CreateNsAudioPackage.init [99, 0]
      (by decide) (by decide)⟩

/-- C8: in the Streaming state with a non-empty window, a page whose granule
position equals the window tail's granule position has attributed duration
`0`, so the cumulative duration is unchanged and the call returns
`noUpdate` (no blob), while the page is still appended to the window. -/
theorem C8_equal_granule_noop (P : PageParser) (s : CreateNsAudioPackage)
    (bs : Bytes) (frame last_frame : OggSFrame) (l : List OggSFrame)
    (hbs : bs ≠ []) (hp : P.parsePage bs = some frame)
    (hh : s.header_frames = some l)
    (hlast : s.audio_data_buffer.getLast? = some last_frame)
    (hgp : frame.granule_position = last_frame.granule_position) :
    (CreateNsAudioPackage.execute P s bs).2 = Outcome.noUpdate ∧
      (CreateNsAudioPackage.execute P s bs).1.current_audio_buffer_seconds =
        s.current_audio_buffer_seconds ∧
      (CreateNsAudioPackage.execute P s bs).1.audio_data_buffer =
        s.audio_data_buffer ++ [frame] := by
  have hd : s.frame_duration frame = 0 := by
    rw [CreateNsAudioPackage.frame_duration_eq,
      CreateNsAudioPackage.previous_granule_position_last s last_frame hlast,
      hgp, sub_self, zero_div]
  rw [CreateNsAudioPackage.execute_streaming P s bs frame l hbs hp hh,
    CreateNsAudioPackage.streamingStep_nonpos s frame (le_of_eq hd), hd]
  simp

/-- Witness for C8: a Streaming state whose window tail has granule 48000,
fed a page with the same granule position. -/
theorem C8_witness :
    (([3, 48000] : Bytes) ≠ []) ∧
      toyParser.parsePage [3, 48000] = some ⟨[3, 48000], 48000⟩ ∧
      ({ CreateNsAudioPackage.init with
          header_frames := some [⟨[1, 0], 0⟩]
          audio_data_buffer := [⟨[3, 48000], 48000⟩]
          current_audio_buffer_seconds := 1 } :
        CreateNsAudioPackage).audio_data_buffer.getLast? =
          some ⟨[3, 48000], 48000⟩ ∧
      ((CreateNsAudioPackage.execute toyParser
          { CreateNsAudioPackage.init with
            header_frames := some [⟨[1, 0], 0⟩]
            audio_data_buffer := [⟨[3, 48000], 48000⟩]
            current_audio_buffer_seconds := 1 } [3, 48000]).2 =
        Outcome.noUpdate ∧
      (CreateNsAudioPackage.execute toyParser
          { CreateNsAudioPackage.init with
            header_frames := some [⟨[1, 0], 0⟩]
            audio_data_buffer := [⟨[3, 48000], 48000⟩]
            current_audio_buffer_seconds := 1 } [3, 48000]).1.current_audio_buffer_seconds =
        ({ CreateNsAudioPackage.init with
            header_frames := some [⟨[1, 0], 0⟩]
            audio_data_buffer := [⟨[3, 48000], 48000⟩]
            current_audio_buffer_seconds := 1 } :
          CreateNsAudioPackage).current_audio_buffer_seconds ∧
      (CreateNsAudioPackage.execute toyParser
          { CreateNsAudioPackage.init with
            header_frames := some [⟨[1, 0], 0⟩]
            audio_data_buffer := [⟨[3, 48000], 48000⟩]
            current_audio_buffer_seconds := 1 } [3, 48000]).1.audio_data_buffer =
        ({ CreateNsAudioPackage.init with
            header_frames := some [⟨[1, 0], 0⟩]
            audio_data_buffer := [⟨[3, 48000], 48000⟩]
            current_audio_buffer_seconds := 1 } :
          CreateNsAudioPackage).audio_data_buffer ++ [⟨[3, 48000], 48000⟩]) :=
  ⟨by decide, by decide, by decide,
    C8_equal_granule_noop toyParser _ [3, 48000] ⟨[3, 48000], 48000⟩
      ⟨[3, 48000], 48000⟩ [⟨[1, 0], 0⟩] (by decide) (by decide) rfl
      (by decide) rfl⟩

/-- C9: in the Streaming state with a non-empty window, a page whose granule
position is strictly below the tail's raises no error: it is still appended,
no eviction happens, no blob is emitted (`noUpdate`), and the cumulative
duration strictly decreases by the negative attributed delta. -/
theorem C9_decreasing_granule_accepted (P : PageParser)
    (s : CreateNsAudioPackage) (bs : Bytes) (frame last_frame : OggSFrame)
    (l : List OggSFrame) (hbs : bs ≠ []) (hp : P.parsePage bs = some frame)
    (hh : s.header_frames = some l)
    (hlast : s.audio_data_buffer.getLast? = some last_frame)
    (hgp : frame.granule_position < last_frame.granule_position)
    (hrate : 0 < s.sample_rate) :
    (CreateNsAudioPackage.execute P s bs).2 = Outcome.noUpdate ∧
      (CreateNsAudioPackage.execute P s bs).1.audio_data_buffer =
        s.audio_data_buffer ++ [frame] ∧
      (CreateNsAudioPackage.execute P s bs).1.current_audio_buffer_seconds <
        s.current_audio_buffer_seconds := by
  have hd : s.frame_duration frame < 0 := by
    rw [CreateNsAudioPackage.frame_duration_eq,
      CreateNsAudioPackage.previous_granule_position_last s last_frame hlast]
    apply div_neg_of_neg_of_pos
    · rw [sub_neg]
      exact_mod_cast hgp
    · exact_mod_cast hrate
  rw [CreateNsAudioPackage.execute_streaming P s bs frame l hbs hp hh,
    CreateNsAudioPackage.streamingStep_nonpos s frame (le_of_lt hd)]
  refine ⟨rfl, rfl, ?_⟩
  simpa using hd

/-- Witness for C9: the C8 witness state fed a page with granule 24000,
strictly below the tail's 48000. -/
theorem C9_witness :
    (([3, 24000] : Bytes) ≠ []) ∧
      toyParser.parsePage [3, 24000] = some ⟨[3, 24000], 24000⟩ ∧
      (24000 < 48000) ∧ (0 < 48000) ∧
      ((CreateNsAudioPackage.execute toyParser
          { CreateNsAudioPackage.init with
            header_frames := some [⟨[1, 0], 0⟩]
            audio_data_buffer := [⟨[3, 48000], 48000⟩]
            current_audio_buffer_seconds := 1 } [3, 24000]).2 =
        Outcome.noUpdate ∧
      (CreateNsAudioPackage.execute toyParser
          { CreateNsAudioPackage.init with
            header_frames := some [⟨[1, 0], 0⟩]
            audio_data_buffer := [⟨[3, 48000], 48000⟩]
            current_audio_buffer_seconds := 1 } [3, 24000]).1.audio_data_buffer =
        ({ CreateNsAudioPackage.init with
            header_frames := some [⟨[1, 0], 0⟩]
            audio_data_buffer := [⟨[3, 48000], 48000⟩]
            current_audio_buffer_seconds := 1 } :
          CreateNsAudioPackage).audio_data_buffer ++ [⟨[3, 24000], 24000⟩] ∧
      (CreateNsAudioPackage.execute toyParser
          { CreateNsAudioPackage.init with
            header_frames := some [⟨[1, 0], 0⟩]
            audio_data_buffer := [⟨[3, 48000], 48000⟩]
            current_audio_buffer_seconds := 1 } [3, 24000]).1.current_audio_buffer_seconds <
        ({ CreateNsAudioPackage.init with
            header_frames := some [⟨[1, 0], 0⟩]
            audio_data_buffer := [⟨[3, 48000], 48000⟩]
            current_audio_buffer_seconds := 1 } :
          CreateNsAudioPackage).current_audio_buffer_seconds) :=
  ⟨by decide, by decide, by decide, by decide,
    C9_decreasing_granule_accepted toyParser _ [3, 24000] ⟨[3, 24000], 24000⟩
      ⟨[3, 48000], 48000⟩ [⟨[1, 0], 0⟩] (by decide) (by decide) rfl
      (by decide) (by decide) (by decide)⟩

/-- C1 (amended): after header capture, a page accepted into an empty window
is attributed duration `granule_position / sample_rate` — the code's
empty-window granule reference is `0`, not the page itself — so the call
yields delta `0.0` and `noUpdate` exactly when that page's granule position
is `0`; for any positive granule position the delta is positive and the call
emits a blob. -/
theorem C1_amended_first_page_delta (P : PageParser)
    (s : CreateNsAudioPackage) (bs : Bytes) (frame : OggSFrame)
    (l : List OggSFrame) (hbs : bs ≠ []) (hp : P.parsePage bs = some frame)
    (hh : s.header_frames = some l) (hempty : s.audio_data_buffer = [])
    (hrate : s.sample_rate = 48000) :
    s.frame_duration frame = (frame.granule_position : ℚ) / 48000 ∧
      (frame.granule_position = 0 →
        (CreateNsAudioPackage.execute P s bs).2 = Outcome.noUpdate ∧
          (CreateNsAudioPackage.execute P s bs).1.current_audio_buffer_seconds =
            s.current_audio_buffer_seconds) ∧
      (0 < frame.granule_position →
        ∃ b, (CreateNsAudioPackage.execute P s bs).2 = Outcome.emit b) := by
  have hprev : s.previous_granule_position = 0 :=
    CreateNsAudioPackage.previous_granule_position_nil s hempty
  have hd : s.frame_duration frame = (frame.granule_position : ℚ) / 48000 := by
    rw [CreateNsAudioPackage.frame_duration_eq, hprev, hrate]
    norm_num
  refine ⟨hd, fun h0 => ?_, fun hpos => ?_⟩
  · have hd0 : s.frame_duration frame = 0 := by rw [hd, h0]; norm_num
    rw [CreateNsAudioPackage.execute_streaming P s bs frame l hbs hp hh,
      CreateNsAudioPackage.streamingStep_nonpos s frame (le_of_eq hd0), hd0]
    simp
  · have hd0 : s.frame_duration frame > 0 := by
      rw [hd]
      apply div_pos
      · exact_mod_cast hpos
      · norm_num
    rw [CreateNsAudioPackage.execute_streaming P s bs frame l hbs hp hh]
    rcases le_or_lt ((s.last_n_seconds : ℚ))
        (s.current_audio_buffer_seconds + s.frame_duration frame) with hge | hlt
    · rw [CreateNsAudioPackage.streamingStep_pos_evict s frame frame []
        (by rw [hempty]; rfl) hd0 hge]
      exact ⟨_, rfl⟩
    · rw [CreateNsAudioPackage.streamingStep_pos_noevict s frame hd0 hlt]
      exact ⟨_, rfl⟩

/-- Witness for the amended C1: a Streaming state with an empty window fed
an audio page with granule 48000 (both legs of the iff-style conclusion are
exercised through the positive-granule leg). -/
theorem C1_amended_witness :
    (([3, 48000] : Bytes) ≠ []) ∧
      toyParser.parsePage [3, 48000] = some ⟨[3, 48000], 48000⟩ ∧
      (({ CreateNsAudioPackage.init with
          header_frames := some [⟨[1, 0], 0⟩] } :
        CreateNsAudioPackage).frame_duration ⟨[3, 48000], 48000⟩ =
          ((48000 : Nat) : ℚ) / 48000 ∧
        ((⟨[3, 48000], 48000⟩ : OggSFrame).granule_position = 0 →
          (CreateNsAudioPackage.execute toyParser
              { CreateNsAudioPackage.init with
                header_frames := some [⟨[1, 0], 0⟩] } [3, 48000]).2 =
            Outcome.noUpdate ∧
          (CreateNsAudioPackage.execute toyParser
              { CreateNsAudioPackage.init with
                header_frames := some [⟨[1, 0], 0⟩] } [3, 48000]).1.current_audio_buffer_seconds =
            ({ CreateNsAudioPackage.init with
                header_frames := some [⟨[1, 0], 0⟩] } :
              CreateNsAudioPackage).current_audio_buffer_seconds) ∧
        (0 < (⟨[3, 48000], 48000⟩ : OggSFrame).granule_position →
          ∃ b, (CreateNsAudioPackage.execute toyParser
              { CreateNsAudioPackage.init with
                header_frames := some [⟨[1, 0], 0⟩] } [3, 48000]).2 =
            Outcome.emit b)) :=
  ⟨by decide, by decide,
    C1_amended_first_page_delta toyParser _ [3, 48000] ⟨[3, 48000], 48000⟩
      [⟨[1, 0], 0⟩] (by decide) (by decide) rfl rfl rfl⟩

/-- C1 is false as stated: on the stream `[[1,0], [2,48000]]` the first page
accepted after header capture into the empty window is the capture call's
own page with granule position 48000; its attributed delta is `1`, not
`0.0`, and the call emits a blob instead of returning `noUpdate`. -/
theorem C1_counterexample :
    (CreateNsAudioPackage.run toyParser CreateNsAudioPackage.init
        [[1, 0], [2, 48000]]).2 =
      [Outcome.headersIncomplete, Outcome.emit [1, 0, 2, 48000, 2, 48000]] ∧
      (CreateNsAudioPackage.run toyParser CreateNsAudioPackage.init
        [[1, 0], [2, 48000]]).1.current_audio_buffer_seconds = 1 := by
  constructor <;>
    norm_num [CreateNsAudioPackage.run, CreateNsAudioPackage.execute,
      CreateNsAudioPackage.streamingStep, CreateNsAudioPackage.frame_duration,
      CreateNsAudioPackage.previous_granule_position, calculate_frame_duration,
      CreateNsAudioPackage.init, toyParser, toyParse, toyGetHeaderFrames,
      toyPages, List.find?, List.filter, List.cons_ne_nil]

namespace CreateNsAudioPackage

/-- The appended buffer is never empty, so the eviction `match` always sees
a head frame. -/
lemma append_frame_cons (s : CreateNsAudioPackage) (frame : OggSFrame) :
    ∃ pop rest, s.audio_data_buffer ++ [frame] = pop :: rest := by
  cases hb : s.audio_data_buffer ++ [frame] with
  | nil => exact absurd hb (by simp)
  | cons a t => exact ⟨a, t, rfl⟩

/-- One streaming call either appends the frame or appends it and drops the
head: the window afterwards is determined up to these two shapes. -/
lemma streamingStep_buffer_shape (s : CreateNsAudioPackage) (frame : OggSFrame) :
    (s.streamingStep frame).1.audio_data_buffer = s.audio_data_buffer ++ [frame] ∨
      (s.streamingStep frame).1.audio_data_buffer =
        (s.audio_data_buffer ++ [frame]).tail := by
  obtain ⟨pop, rest, happ⟩ := append_frame_cons s frame
  by_cases hpos : s.frame_duration frame > 0
  · by_cases hfull : s.current_audio_buffer_seconds + s.frame_duration frame ≥
        (s.last_n_seconds : ℚ)
    · rw [streamingStep_pos_evict s frame pop rest happ hpos hfull, happ]
      exact Or.inr rfl
    · rw [streamingStep_pos_noevict s frame hpos (lt_of_not_ge hfull)]
      exact Or.inl rfl
  · rw [streamingStep_nonpos s frame (le_of_not_lt hpos)]
    exact Or.inl rfl

/-- A streaming call never touches the header accumulator or the HeaderSet. -/
lemma streamingStep_header_fields (s : CreateNsAudioPackage) (frame : OggSFrame) :
    (s.streamingStep frame).1.header_buffer = s.header_buffer ∧
      (s.streamingStep frame).1.header_frames = s.header_frames := by
  obtain ⟨pop, rest, happ⟩ := append_frame_cons s frame
  by_cases hpos : s.frame_duration frame > 0
  · by_cases hfull : s.current_audio_buffer_seconds + s.frame_duration frame ≥
        (s.last_n_seconds : ℚ)
    · rw [streamingStep_pos_evict s frame pop rest happ hpos hfull]
      exact ⟨rfl, rfl⟩
    · rw [streamingStep_pos_noevict s frame hpos (lt_of_not_ge hfull)]
      exact ⟨rfl, rfl⟩
  · rw [streamingStep_nonpos s frame (le_of_not_lt hpos)]
    exact ⟨rfl, rfl⟩

/-- Whatever a streaming call emits is the resulting state's accumulator
bytes followed by the resulting window's raw bytes (line 88). -/
lemma streamingStep_emit_shape (s : CreateNsAudioPackage) (frame : OggSFrame)
    (s2 : CreateNsAudioPackage) (blob : Bytes)
    (h : s.streamingStep frame = (s2, Outcome.emit blob)) :
    blob = s2.header_buffer ++
      (s2.audio_data_buffer.map OggSFrame.raw_data).flatten := by
  obtain ⟨pop, rest, happ⟩ := append_frame_cons s frame
  by_cases hpos : s.frame_duration frame > 0
  · by_cases hfull : s.current_audio_buffer_seconds + s.frame_duration frame ≥
        (s.last_n_seconds : ℚ)
    · rw [streamingStep_pos_evict s frame pop rest happ hpos hfull] at h
      obtain ⟨h1, h2⟩ := Prod.mk.injEq .. ▸ h
      cases h1
      exact (Outcome.emit.injEq .. ▸ h2).symm
    · rw [streamingStep_pos_noevict s frame hpos (lt_of_not_ge hfull)] at h
      obtain ⟨h1, h2⟩ := Prod.mk.injEq .. ▸ h
      cases h1
      exact (Outcome.emit.injEq .. ▸ h2).symm
  · rw [streamingStep_nonpos s frame (le_of_not_lt hpos)] at h
    exact absurd (congrArg Prod.snd h) (by simp)

/-- Lifts `streamingStep_emit_shape` through `execute`: any emitted blob is
the final accumulator plus the final window bytes. -/
lemma execute_emit_shape (P : PageParser) (s s2 : CreateNsAudioPackage)
    (bs blob : Bytes)
    (h : execute P s bs = (s2, Outcome.emit blob)) :
    blob = s2.header_buffer ++
      (s2.audio_data_buffer.map OggSFrame.raw_data).flatten := by
  by_cases hbs : bs = []
  · rw [hbs] at h
    simp only [execute, if_pos rfl] at h
    exact absurd (congrArg Prod.snd h) (by simp)
  · cases hp : P.parsePage bs with
    | none =>
      rw [execute_parse_failure P s bs hbs hp] at h
      exact absurd (congrArg Prod.snd h) (by simp)
    | some frame =>
      cases hh : s.header_frames with
      | some l =>
        rw [execute_streaming P s bs frame l hbs hp hh] at h
        exact streamingStep_emit_shape _ _ _ _ h
      | none =>
        simp only [execute, if_neg hbs, hp, hh] at h
        rcases hg : P.get_header_frames (s.header_buffer ++ frame.raw_data)
          with ⟨idf, cs⟩
        rw [hg] at h
        cases idf with
        | none =>
          cases cs with
          | nil => exact absurd (congrArg Prod.snd h) (by simp)
          | cons c t => exact absurd (congrArg Prod.snd h) (by simp)
        | some i =>
          cases cs with
          | nil => exact absurd (congrArg Prod.snd h) (by simp)
          | cons c t => exact streamingStep_emit_shape _ _ _ _ h

end CreateNsAudioPackage

/-- C2 (amended): every emitted blob is the header accumulator's bytes
(`self.header_buffer`, line 88) — not the HeaderSet pages' bytes — followed
by the raw bytes of every page in the (post-call) window, in order; whenever
the accumulator happens to equal the HeaderSet pages' concatenated raw
bytes, the blob therefore is exactly the HeaderSet bytes followed by the
window bytes. -/
theorem C2_amended_blob_is_accumulator_plus_window (P : PageParser)
    (s s2 : CreateNsAudioPackage) (bs blob : Bytes)
    (h : CreateNsAudioPackage.execute P s bs = (s2, Outcome.emit blob)) :
    blob = s2.header_buffer ++
        (s2.audio_data_buffer.map OggSFrame.raw_data).flatten ∧
      ∀ hf : List OggSFrame, s2.header_frames = some hf →
        s2.header_buffer = (hf.map OggSFrame.raw_data).flatten →
        blob = ((hf ++ s2.audio_data_buffer).map OggSFrame.raw_data).flatten := by
  have h1 := CreateNsAudioPackage.execute_emit_shape P s s2 bs blob h
  refine ⟨h1, fun hf hfr hb => ?_⟩
  rw [h1, hb, List.map_append, List.flatten_append]

/-- Witness for the amended C2: a Streaming state whose accumulator holds
exactly the two header pages' bytes emits the accumulator plus the window. -/
theorem C2_amended_witness :
    CreateNsAudioPackage.execute toyParser
        { CreateNsAudioPackage.init with
          header_frames := some [⟨[1, 0], 0⟩, ⟨[2, 0], 0⟩]
          header_buffer := [1, 0, 2, 0] } [3, 48000] =
      ({ CreateNsAudioPackage.init with
          header_frames := some [⟨[1, 0], 0⟩, ⟨[2, 0], 0⟩]
          header_buffer := [1, 0, 2, 0]
          audio_data_buffer := [⟨[3, 48000], 48000⟩]
          current_audio_buffer_seconds := 1 },
        Outcome.emit [1, 0, 2, 0, 3, 48000]) ∧
      ([1, 0, 2, 0, 3, 48000] : Bytes) =
        ({ CreateNsAudioPackage.init with
            header_frames := some [⟨[1, 0], 0⟩, ⟨[2, 0], 0⟩]
            header_buffer := [1, 0, 2, 0]
            audio_data_buffer := [⟨[3, 48000], 48000⟩]
            current_audio_buffer_seconds := 1 } :
          CreateNsAudioPackage).header_buffer ++
          ((({ CreateNsAudioPackage.init with
              header_frames := some [⟨[1, 0], 0⟩, ⟨[2, 0], 0⟩]
              header_buffer := [1, 0, 2, 0]
              audio_data_buffer := [⟨[3, 48000], 48000⟩]
              current_audio_buffer_seconds := 1 } :
            CreateNsAudioPackage).audio_data_buffer.map OggSFrame.raw_data).flatten) ∧
      ([1, 0, 2, 0, 3, 48000] : Bytes) =
        ((([⟨[1, 0], 0⟩, ⟨[2, 0], 0⟩] : List OggSFrame) ++
          ([⟨[3, 48000], 48000⟩] : List OggSFrame)).map OggSFrame.raw_data).flatten := by
  have h : CreateNsAudioPackage.execute toyParser
      { CreateNsAudioPackage.init with
        header_frames := some [⟨[1, 0], 0⟩, ⟨[2, 0], 0⟩]
        header_buffer := [1, 0, 2, 0] } [3, 48000] =
      ({ CreateNsAudioPackage.init with
          header_frames := some [⟨[1, 0], 0⟩, ⟨[2, 0], 0⟩]
          header_buffer := [1, 0, 2, 0]
          audio_data_buffer := [⟨[3, 48000], 48000⟩]
          current_audio_buffer_seconds := 1 },
        Outcome.emit [1, 0, 2, 0, 3, 48000]) := by
    norm_num [CreateNsAudioPackage.execute, CreateNsAudioPackage.streamingStep,
      CreateNsAudioPackage.frame_duration,
      CreateNsAudioPackage.previous_granule_position, calculate_frame_duration,
      CreateNsAudioPackage.init, toyParser, toyParse, List.cons_ne_nil]
  exact ⟨h, (C2_amended_blob_is_accumulator_plus_window toyParser _ _ _ _ h).1,
    (C2_amended_blob_is_accumulator_plus_window toyParser _ _ _ _ h).2
      [⟨[1, 0], 0⟩, ⟨[2, 0], 0⟩] rfl (by decide)⟩

/-- C2 is false as stated: if a non-header page arrives between the
identification page and the comment page, its bytes are trapped in the
header accumulator, and every emitted blob contains them even though they
belong neither to the HeaderSet nor to the window.  On the stream
`[[1,0], [3,5], [2,10]]` the third call emits `[1,0,3,5,2,10,2,10]`, while
the HeaderSet pages' bytes followed by the window pages' bytes would be
`[1,0,2,10,2,10]`. -/
theorem C2_counterexample :
    (CreateNsAudioPackage.run toyParser CreateNsAudioPackage.init
        [[1, 0], [3, 5], [2, 10]]).2 =
      [Outcome.headersIncomplete, Outcome.headersIncomplete,
        Outcome.emit [1, 0, 3, 5, 2, 10, 2, 10]] ∧
      (CreateNsAudioPackage.run toyParser CreateNsAudioPackage.init
        [[1, 0], [3, 5], [2, 10]]).1.header_frames =
        some [⟨[1, 0], 0⟩, ⟨[2, 10], 10⟩] ∧
      (CreateNsAudioPackage.run toyParser CreateNsAudioPackage.init
        [[1, 0], [3, 5], [2, 10]]).1.audio_data_buffer = [⟨[2, 10], 10⟩] ∧
      ([1, 0, 3, 5, 2, 10, 2, 10] : Bytes) ≠
        ((([⟨[1, 0], 0⟩, ⟨[2, 10], 10⟩] : List OggSFrame) ++
          ([⟨[2, 10], 10⟩] : List OggSFrame)).map OggSFrame.raw_data).flatten := by
  refine ⟨?_, ?_, ?_, by decide⟩ <;>
    norm_num [CreateNsAudioPackage.run, CreateNsAudioPackage.execute,
      CreateNsAudioPackage.streamingStep, CreateNsAudioPackage.frame_duration,
      CreateNsAudioPackage.previous_granule_position, calculate_frame_duration,
      CreateNsAudioPackage.init, toyParser, toyParse, toyGetHeaderFrames,
      toyPages, List.find?, List.filter, List.cons_ne_nil]

/-- C4 (amended): in the Streaming state, on a call whose attributed
duration is strictly positive and whose cumulative duration after appending
reaches the target, exactly one page — the head of the appended window — is
evicted, the duration subtracted is `(granule of new head − granule of
evicted) / sample_rate` (zero when the window becomes empty), and a blob is
emitted.  The positivity guard is necessary: with a non-positive duration
the code skips eviction even when the cumulative duration is at or above
the target (see the counterexample). -/
theorem C4_amended_single_eviction (P : PageParser)
    (s : CreateNsAudioPackage) (bs : Bytes) (frame : OggSFrame)
    (l : List OggSFrame) (hbs : bs ≠ []) (hp : P.parsePage bs = some frame)
    (hh : s.header_frames = some l)
    (hpos : s.frame_duration frame > 0)
    (hfull : s.current_audio_buffer_seconds + s.frame_duration frame ≥
      (s.last_n_seconds : ℚ)) :
    ∃ pop rest, s.audio_data_buffer ++ [frame] = pop :: rest ∧
      (CreateNsAudioPackage.execute P s bs).1.audio_data_buffer = rest ∧
      (CreateNsAudioPackage.execute P s bs).1.current_audio_buffer_seconds =
        s.current_audio_buffer_seconds + s.frame_duration frame -
          calculate_frame_duration
            (rest.head?.elim pop.granule_position OggSFrame.granule_position)
            (some pop.granule_position) s.sample_rate ∧
      ∃ b, (CreateNsAudioPackage.execute P s bs).2 = Outcome.emit b := by
  obtain ⟨pop, rest, happ⟩ := CreateNsAudioPackage.append_frame_cons s frame
  rw [CreateNsAudioPackage.execute_streaming P s bs frame l hbs hp hh,
    CreateNsAudioPackage.streamingStep_pos_evict s frame pop rest happ hpos hfull]
  exact ⟨pop, rest, happ, rfl, rfl, _, rfl⟩

/-- Witness for the amended C4: one page of granule 0 in the window, fed a
page of granule 480000 (duration 10 = target), so the head is evicted. -/
theorem C4_amended_witness :
    ({ CreateNsAudioPackage.init with
        header_frames := some [⟨[1, 0], 0⟩]
        audio_data_buffer := [⟨[3, 0], 0⟩] } :
      CreateNsAudioPackage).frame_duration ⟨[3, 480000], 480000⟩ > 0 ∧
      ({ CreateNsAudioPackage.init with
          header_frames := some [⟨[1, 0], 0⟩]
          audio_data_buffer := [⟨[3, 0], 0⟩] } :
        CreateNsAudioPackage).current_audio_buffer_seconds +
        ({ CreateNsAudioPackage.init with
            header_frames := some [⟨[1, 0], 0⟩]
            audio_data_buffer := [⟨[3, 0], 0⟩] } :
          CreateNsAudioPackage).frame_duration ⟨[3, 480000], 480000⟩ ≥
        (({ CreateNsAudioPackage.init with
            header_frames := some [⟨[1, 0], 0⟩]
            audio_data_buffer := [⟨[3, 0], 0⟩] } :
          CreateNsAudioPackage).last_n_seconds : ℚ) ∧
      ∃ pop rest,
        ({ CreateNsAudioPackage.init with
            header_frames := some [⟨[1, 0], 0⟩]
            audio_data_buffer := [⟨[3, 0], 0⟩] } :
          CreateNsAudioPackage).audio_data_buffer ++ [⟨[3, 480000], 480000⟩] =
            pop :: rest ∧
        (CreateNsAudioPackage.execute toyParser
            { CreateNsAudioPackage.init with
              header_frames := some [⟨[1, 0], 0⟩]
              audio_data_buffer := [⟨[3, 0], 0⟩] } [3, 480000]).1.audio_data_buffer =
          rest ∧
        (CreateNsAudioPackage.execute toyParser
            { CreateNsAudioPackage.init with
              header_frames := some [⟨[1, 0], 0⟩]
              audio_data_buffer := [⟨[3, 0], 0⟩] } [3, 480000]).1.current_audio_buffer_seconds =
          ({ CreateNsAudioPackage.init with
              header_frames := some [⟨[1, 0], 0⟩]
              audio_data_buffer := [⟨[3, 0], 0⟩] } :
            CreateNsAudioPackage).current_audio_buffer_seconds +
            ({ CreateNsAudioPackage.init with
                header_frames := some [⟨[1, 0], 0⟩]
                audio_data_buffer := [⟨[3, 0], 0⟩] } :
              CreateNsAudioPackage).frame_duration ⟨[3, 480000], 480000⟩ -
            calculate_frame_duration
              (rest.head?.elim pop.granule_position OggSFrame.granule_position)
              (some pop.granule_position)
              ({ CreateNsAudioPackage.init with
                  header_frames := some [⟨[1, 0], 0⟩]
                  audio_data_buffer := [⟨[3, 0], 0⟩] } :
                CreateNsAudioPackage).sample_rate ∧
        ∃ b, (CreateNsAudioPackage.execute toyParser
            { CreateNsAudioPackage.init with
              header_frames := some [⟨[1, 0], 0⟩]
              audio_data_buffer := [⟨[3, 0], 0⟩] } [3, 480000]).2 =
          Outcome.emit b := by
  have h1 : ({ CreateNsAudioPackage.init with
      header_frames := some [⟨[1, 0], 0⟩]
      audio_data_buffer := [⟨[3, 0], 0⟩] } :
    CreateNsAudioPackage).frame_duration ⟨[3, 480000], 480000⟩ > 0 := by
    norm_num [CreateNsAudioPackage.frame_duration,
      CreateNsAudioPackage.previous_granule_position, calculate_frame_duration,
      CreateNsAudioPackage.init]
  have h2 : ({ CreateNsAudioPackage.init with
      header_frames := some [⟨[1, 0], 0⟩]
      audio_data_buffer := [⟨[3, 0], 0⟩] } :
    CreateNsAudioPackage).current_audio_buffer_seconds +
      ({ CreateNsAudioPackage.init with
          header_frames := some [⟨[1, 0], 0⟩]
          audio_data_buffer := [⟨[3, 0], 0⟩] } :
        CreateNsAudioPackage).frame_duration ⟨[3, 480000], 480000⟩ ≥
      (({ CreateNsAudioPackage.init with
          header_frames := some [⟨[1, 0], 0⟩]
          audio_data_buffer := [⟨[3, 0], 0⟩] } :
        CreateNsAudioPackage).last_n_seconds : ℚ) := by
    norm_num [CreateNsAudioPackage.frame_duration,
      CreateNsAudioPackage.previous_granule_position, calculate_frame_duration,
      CreateNsAudioPackage.init]
  exact ⟨h1, h2,
    C4_amended_single_eviction toyParser _ [3, 480000] ⟨[3, 480000], 480000⟩
      [⟨[1, 0], 0⟩] (by decide) (by decide) rfl h1 h2⟩

/-- C4 is false as stated: after the under-evicting 13-call stream the
cumulative duration is 25 ≥ 10 = target, and a 14th page with an unchanged
granule position is appended with cumulative duration still 25 ≥ 10, yet no
page is evicted (the window grows from 9 to 10 pages), because eviction
only runs when the attributed duration is strictly positive. -/
theorem C4_counterexample :
    (CreateNsAudioPackage.run toyParser CreateNsAudioPackage.init
        [[1, 0], [2, 48000], [3, 96000], [3, 144000], [3, 192000], [3, 240000],
          [3, 288000], [3, 336000], [3, 384000], [3, 432000], [3, 480000],
          [3, 912000], [3, 1344000], [3, 1344000]]).1.current_audio_buffer_seconds =
      25 ∧
      (10 : ℚ) ≤ 25 ∧
      (CreateNsAudioPackage.run toyParser CreateNsAudioPackage.init
        [[1, 0], [2, 48000], [3, 96000], [3, 144000], [3, 192000], [3, 240000],
          [3, 288000], [3, 336000], [3, 384000], [3, 432000], [3, 480000],
          [3, 912000], [3, 1344000]]).1.audio_data_buffer.length = 9 ∧
      (CreateNsAudioPackage.run toyParser CreateNsAudioPackage.init
        [[1, 0], [2, 48000], [3, 96000], [3, 144000], [3, 192000], [3, 240000],
          [3, 288000], [3, 336000], [3, 384000], [3, 432000], [3, 480000],
          [3, 912000], [3, 1344000], [3, 1344000]]).1.audio_data_buffer.length =
        10 ∧
      (CreateNsAudioPackage.run toyParser CreateNsAudioPackage.init
        [[1, 0], [2, 48000], [3, 96000], [3, 144000], [3, 192000], [3, 240000],
          [3, 288000], [3, 336000], [3, 384000], [3, 432000], [3, 480000],
          [3, 912000], [3, 1344000], [3, 1344000]]).2.getLast? =
        some Outcome.noUpdate := by
  refine ⟨?_, by norm_num, ?_, ?_, ?_⟩ <;>
    norm_num [CreateNsAudioPackage.run, CreateNsAudioPackage.execute,
      CreateNsAudioPackage.streamingStep, CreateNsAudioPackage.frame_duration,
      CreateNsAudioPackage.previous_granule_position, calculate_frame_duration,
      CreateNsAudioPackage.init, toyParser, toyParse, toyGetHeaderFrames,
      toyPages, List.find?, List.filter, List.cons_ne_nil]

/-- C5 (amended): a call never inserts HeaderSet pages into the window on
its own: each call either leaves the window unchanged (empty payload, parse
failure, incomplete headers) or appends exactly its own parsed input page,
possibly dropping the head.  In particular no page other than a call's own
input — and, on the capture call, that input can itself be a header page
(see the counterexample) — ever enters the window. -/
theorem C5_amended_only_input_page_appended (P : PageParser)
    (s : CreateNsAudioPackage) (bs : Bytes) :
    (CreateNsAudioPackage.execute P s bs).1.audio_data_buffer =
        s.audio_data_buffer ∨
      ∃ frame, P.parsePage bs = some frame ∧
        ((CreateNsAudioPackage.execute P s bs).1.audio_data_buffer =
            s.audio_data_buffer ++ [frame] ∨
          (CreateNsAudioPackage.execute P s bs).1.audio_data_buffer =
            (s.audio_data_buffer ++ [frame]).tail) := by
  by_cases hbs : bs = []
  · subst hbs
    left
    simp [CreateNsAudioPackage.execute]
  · cases hp : P.parsePage bs with
    | none =>
      left
      rw [CreateNsAudioPackage.execute_parse_failure P s bs hbs hp]
    | some frame =>
      cases hh : s.header_frames with
      | some l =>
        right
        refine ⟨frame, rfl, ?_⟩
        rw [CreateNsAudioPackage.execute_streaming P s bs frame l hbs hp hh]
        exact CreateNsAudioPackage.streamingStep_buffer_shape s frame
      | none =>
        rcases hg : P.get_header_frames (s.header_buffer ++ frame.raw_data)
          with ⟨idf, cs⟩
        cases idf with
        | none =>
          left
          cases cs with
          | nil => simp [CreateNsAudioPackage.execute, hbs, hp, hh, hg]
          | cons c t => simp [CreateNsAudioPackage.execute, hbs, hp, hh, hg]
        | some i =>
          cases cs with
          | nil =>
            left
            simp [CreateNsAudioPackage.execute, hbs, hp, hh, hg]
          | cons c t =>
            right
            refine ⟨frame, rfl, ?_⟩
            have hrun : CreateNsAudioPackage.execute P s bs =
                CreateNsAudioPackage.streamingStep
                  { s with
                    header_buffer := s.header_buffer ++ frame.raw_data
                    header_frames := some (i :: c :: t) } frame := by
              simp [CreateNsAudioPackage.execute, hbs, hp, hh, hg]
            rw [hrun]
            exact CreateNsAudioPackage.streamingStep_buffer_shape
              { s with
                header_buffer := s.header_buffer ++ frame.raw_data
                header_frames := some (i :: c :: t) } frame

/-- C5 is false as stated: on the stream `[[1,0], [2,0]]` the capture call's
own input page is the comment header page, and the code appends it to the
window on that very call, so the window holds a HeaderSet member right
after capture. -/
theorem C5_counterexample :
    (CreateNsAudioPackage.run toyParser CreateNsAudioPackage.init
        [[1, 0], [2, 0]]).1.audio_data_buffer = [⟨[2, 0], 0⟩] ∧
      (CreateNsAudioPackage.run toyParser CreateNsAudioPackage.init
        [[1, 0], [2, 0]]).1.header_frames =
        some [⟨[1, 0], 0⟩, ⟨[2, 0], 0⟩] ∧
      (⟨[2, 0], 0⟩ : OggSFrame) ∈ ([⟨[1, 0], 0⟩, ⟨[2, 0], 0⟩] : List OggSFrame) := by
  refine ⟨?_, ?_, by decide⟩ <;>
    norm_num [CreateNsAudioPackage.run, CreateNsAudioPackage.execute,
      CreateNsAudioPackage.streamingStep, CreateNsAudioPackage.frame_duration,
      CreateNsAudioPackage.previous_granule_position, calculate_frame_duration,
      CreateNsAudioPackage.init, toyParser, toyParse, toyGetHeaderFrames,
      toyPages, List.find?, List.filter, List.cons_ne_nil]

/-- C6 (amended): on the capture call the HeaderSet is frozen and never
changes on later calls, but the raw byte accumulator is not discarded: it
is retained unchanged through every Streaming call, and every emitted blob
starts with exactly the accumulator's bytes. -/
theorem C6_amended_accumulator_retained (P : PageParser)
    (s : CreateNsAudioPackage) (bs : Bytes) (l : List OggSFrame)
    (hh : s.header_frames = some l) :
    (CreateNsAudioPackage.execute P s bs).1.header_buffer = s.header_buffer ∧
      (CreateNsAudioPackage.execute P s bs).1.header_frames = some l ∧
      ∀ blob, (CreateNsAudioPackage.execute P s bs).2 = Outcome.emit blob →
        ∃ t, blob = s.header_buffer ++ t := by
  by_cases hbs : bs = []
  · subst hbs
    refine ⟨by simp [CreateNsAudioPackage.execute],
      by simp [CreateNsAudioPackage.execute, hh], fun blob hb => ?_⟩
    simp [CreateNsAudioPackage.execute] at hb
  · cases hp : P.parsePage bs with
    | none =>
      rw [CreateNsAudioPackage.execute_parse_failure P s bs hbs hp]
      exact ⟨rfl, hh, fun blob hb => by simp at hb⟩
    | some frame =>
      rw [CreateNsAudioPackage.execute_streaming P s bs frame l hbs hp hh]
      obtain ⟨hf1, hf2⟩ := CreateNsAudioPackage.streamingStep_header_fields s frame
      refine ⟨hf1, hf2.trans hh, fun blob hb => ?_⟩
      have hpair : CreateNsAudioPackage.streamingStep s frame =
          ((CreateNsAudioPackage.streamingStep s frame).1, Outcome.emit blob) := by
        rw [← hb]
      have hshape := CreateNsAudioPackage.streamingStep_emit_shape s frame
        (CreateNsAudioPackage.streamingStep s frame).1 blob hpair
      exact ⟨_, by rw [hshape, hf1]⟩

/-- Witness for the amended C6: a Streaming state with a non-empty
accumulator fed an audio page; the accumulator survives and heads the
emitted blob. -/
theorem C6_amended_witness :
    (CreateNsAudioPackage.execute toyParser
        { CreateNsAudioPackage.init with
          header_frames := some [⟨[1, 0], 0⟩]
          header_buffer := [1, 0] } [3, 48000]).1.header_buffer = [1, 0] ∧
      (CreateNsAudioPackage.execute toyParser
        { CreateNsAudioPackage.init with
          header_frames := some [⟨[1, 0], 0⟩]
          header_buffer := [1, 0] } [3, 48000]).1.header_frames =
        some [⟨[1, 0], 0⟩] ∧
      ∀ blob, (CreateNsAudioPackage.execute toyParser
          { CreateNsAudioPackage.init with
            header_frames := some [⟨[1, 0], 0⟩]
            header_buffer := [1, 0] } [3, 48000]).2 = Outcome.emit blob →
        ∃ t, blob = [1, 0] ++ t :=
  C6_amended_accumulator_retained toyParser
    { CreateNsAudioPackage.init with
      header_frames := some [⟨[1, 0], 0⟩]
      header_buffer := [1, 0] } [3, 48000] [⟨[1, 0], 0⟩] rfl

/-- C6 is false as stated: after capture on `[[1,0], [2,48000]]` the
accumulator still holds `[1,0,2,48000]` (it is not discarded), and the
blob of the later third call starts with those very bytes — including the
identification page's bytes `[1,0]`, which are in no window page — so the
accumulator keeps playing a role in every later emission. -/
theorem C6_counterexample :
    (CreateNsAudioPackage.run toyParser CreateNsAudioPackage.init
        [[1, 0], [2, 48000], [3, 96000]]).1.header_buffer = [1, 0, 2, 48000] ∧
      ([1, 0, 2, 48000] : Bytes) ≠ [] ∧
      (CreateNsAudioPackage.run toyParser CreateNsAudioPackage.init
        [[1, 0], [2, 48000], [3, 96000]]).2 =
        [Outcome.headersIncomplete,
          Outcome.emit ([1, 0, 2, 48000] ++ [2, 48000]),
          Outcome.emit ([1, 0, 2, 48000] ++ [2, 48000, 3, 96000])] := by
  refine ⟨?_, by decide, ?_⟩ <;>
    norm_num [CreateNsAudioPackage.run, CreateNsAudioPackage.execute,
      CreateNsAudioPackage.streamingStep, CreateNsAudioPackage.frame_duration,
      CreateNsAudioPackage.previous_granule_position, calculate_frame_duration,
      CreateNsAudioPackage.init, toyParser, toyParse, toyGetHeaderFrames,
      toyPages, List.find?, List.filter, List.cons_ne_nil]

/-- C3 (amended): the target-plus-one-page bound holds call-by-call but not
cumulatively: on any Streaming call whose pre-call cumulative duration is
below the target and whose window granule positions (with the new page) are
non-decreasing, the post-call cumulative duration stays below the target
plus that page's attributed duration.  Over a whole stream the bound can
fail, because the single eviction per call may leave the cumulative
duration at or above the target indefinitely (see the counterexample). -/
theorem C3_amended_single_call_bound (P : PageParser)
    (s : CreateNsAudioPackage) (bs : Bytes) (frame : OggSFrame)
    (l : List OggSFrame) (hbs : bs ≠ []) (hp : P.parsePage bs = some frame)
    (hh : s.header_frames = some l)
    (hchain : List.Chain' (fun a b => a ≤ b)
      ((s.audio_data_buffer ++ [frame]).map OggSFrame.granule_position))
    (hbelow : s.current_audio_buffer_seconds < (s.last_n_seconds : ℚ)) :
    (CreateNsAudioPackage.execute P s bs).1.current_audio_buffer_seconds <
      (s.last_n_seconds : ℚ) + s.frame_duration frame := by
  rw [CreateNsAudioPackage.execute_streaming P s bs frame l hbs hp hh]
  by_cases hpos : s.frame_duration frame > 0
  · by_cases hfull : s.current_audio_buffer_seconds + s.frame_duration frame ≥
        (s.last_n_seconds : ℚ)
    · obtain ⟨pop, rest, happ⟩ := CreateNsAudioPackage.append_frame_cons s frame
      rw [CreateNsAudioPackage.streamingStep_pos_evict s frame pop rest happ
        hpos hfull]
      have hpopnn : 0 ≤ calculate_frame_duration
          (rest.head?.elim pop.granule_position OggSFrame.granule_position)
          (some pop.granule_position) s.sample_rate := by
        cases rest with
        | nil => simp [calculate_frame_duration]
        | cons next t =>
          have hle : pop.granule_position ≤ next.granule_position := by
            rw [happ] at hchain
            simp only [List.map_cons] at hchain
            exact (List.chain'_cons.mp hchain).1
          have helim : ((next :: t).head?.elim pop.granule_position
              OggSFrame.granule_position) = next.granule_position := rfl
          rw [helim]
          show (0 : ℚ) ≤ ((next.granule_position : ℚ) -
            (pop.granule_position : ℚ)) / (s.sample_rate : ℚ)
          apply div_nonneg
          · rw [sub_nonneg]
            exact_mod_cast hle
          · exact Nat.cast_nonneg _
      dsimp only
      linarith
    · rw [CreateNsAudioPackage.streamingStep_pos_noevict s frame hpos
        (lt_of_not_ge hfull)]
      dsimp only
      linarith [lt_of_not_ge hfull]
  · rw [CreateNsAudioPackage.streamingStep_nonpos s frame (le_of_not_lt hpos)]
    dsimp only
    linarith

/-- Witness for the amended C3: a Streaming state with an empty window and
cumulative duration 0 < 10, fed a one-second page. -/
theorem C3_amended_witness :
    (([3, 48000] : Bytes) ≠ []) ∧
      toyParser.parsePage [3, 48000] = some ⟨[3, 48000], 48000⟩ ∧
      List.Chain' (fun a b => a ≤ b)
        (((({ CreateNsAudioPackage.init with
            header_frames := some [⟨[1, 0], 0⟩] } :
          CreateNsAudioPackage).audio_data_buffer ++
            ([⟨[3, 48000], 48000⟩] : List OggSFrame)).map OggSFrame.granule_position)) ∧
      ({ CreateNsAudioPackage.init with
          header_frames := some [⟨[1, 0], 0⟩] } :
        CreateNsAudioPackage).current_audio_buffer_seconds <
        (({ CreateNsAudioPackage.init with
            header_frames := some [⟨[1, 0], 0⟩] } :
          CreateNsAudioPackage).last_n_seconds : ℚ) ∧
      (CreateNsAudioPackage.execute toyParser
          { CreateNsAudioPackage.init with
            header_frames := some [⟨[1, 0], 0⟩] } [3, 48000]).1.current_audio_buffer_seconds <
        (({ CreateNsAudioPackage.init with
            header_frames := some [⟨[1, 0], 0⟩] } :
          CreateNsAudioPackage).last_n_seconds : ℚ) +
          ({ CreateNsAudioPackage.init with
              header_frames := some [⟨[1, 0], 0⟩] } :
            CreateNsAudioPackage).frame_duration ⟨[3, 48000], 48000⟩ := by
  have h4 : ({ CreateNsAudioPackage.init with
      header_frames := some [⟨[1, 0], 0⟩] } :
    CreateNsAudioPackage).current_audio_buffer_seconds <
      (({ CreateNsAudioPackage.init with
          header_frames := some [⟨[1, 0], 0⟩] } :
        CreateNsAudioPackage).last_n_seconds : ℚ) := by
    norm_num [CreateNsAudioPackage.init]
  exact ⟨by decide, by decide,
    by simp [CreateNsAudioPackage.init, List.chain'_singleton],
    h4,
    C3_amended_single_call_bound toyParser _ [3, 48000]
      (⟨[3, 48000], 48000⟩ : OggSFrame) ([⟨[1, 0], 0⟩] : List OggSFrame)
      (by decide) (by decide) rfl
      (by simp [CreateNsAudioPackage.init, List.chain'_singleton]) h4⟩

/-- C3 is false as stated: the 13 calls below carry strictly increasing
granule positions whose consecutive gaps are at most `9 * 48000` samples
(that is, every single-page duration is at most 9 seconds at the 48000 Hz
sample rate, and the target is 10 seconds), yet the cumulative window
duration after the last call is 25 > 10 + 9, because each call evicts at
most one page while large granule jumps keep adding 9 seconds and each
eviction only removes a one-second head page. -/
theorem C3_counterexample :
    ([[1, 0], [2, 48000], [3, 96000], [3, 144000], [3, 192000], [3, 240000],
        [3, 288000], [3, 336000], [3, 384000], [3, 432000], [3, 480000],
        [3, 912000], [3, 1344000]] : List Bytes).map
        (fun bs => ((toyParser.parsePage bs).map OggSFrame.granule_position).getD 0) =
      [0, 48000, 96000, 144000, 192000, 240000, 288000, 336000, 384000,
        432000, 480000, 912000, 1344000] ∧
      List.Chain' (fun a b => a < b ∧ b - a ≤ 9 * 48000)
        [0, 48000, 96000, 144000, 192000, 240000, 288000, 336000, 384000,
          432000, 480000, 912000, 1344000] ∧
      (CreateNsAudioPackage.run toyParser CreateNsAudioPackage.init
        [[1, 0], [2, 48000], [3, 96000], [3, 144000], [3, 192000], [3, 240000],
          [3, 288000], [3, 336000], [3, 384000], [3, 432000], [3, 480000],
          [3, 912000], [3, 1344000]]).1.current_audio_buffer_seconds = 25 ∧
      ((CreateNsAudioPackage.init.last_n_seconds : ℚ) + 9 < 25) := by
  refine ⟨by decide,
    by norm_num [List.chain'_cons, List.chain'_singleton],
    ?_, by norm_num [CreateNsAudioPackage.init]⟩
  norm_num [CreateNsAudioPackage.run, CreateNsAudioPackage.execute,
    CreateNsAudioPackage.streamingStep, CreateNsAudioPackage.frame_duration,
    CreateNsAudioPackage.previous_granule_position, calculate_frame_duration,
    CreateNsAudioPackage.init, toyParser, toyParse, toyGetHeaderFrames,
    toyPages, List.find?, List.filter, List.cons_ne_nil]
